import Mathlib

/-!
# Verification of the emex VIN parser (src/main.py)

Shallow embedding of the `EmexVINParser` class and its Flask endpoints.

HTML documents are modelled as a forest of element nodes.  A node carries
its tag name, its class list, its attribute list, its direct text and its
children.  The extra `broken` flag models an element whose text extraction
(`get_text`) raises an exception at run time; the source catches such
exceptions with `except` blocks, and the flag lets us state exactly which
nodes survive when one node misbehaves.

Outbound HTTP traffic is made explicit: every function that performs a
network call in the source returns, next to its result, the list of calls
it issued, and takes the responses it would receive as an argument.
-/

/-- An HTML element node, as seen through BeautifulSoup. -/
inductive Node : Type where
  | mk (tag : String) (classes : List String) (attrs : List (String × String))
       (text : String) (broken : Bool) (children : List Node) : Node

def Node.tag : Node → String
  | .mk t _ _ _ _ _ => t

def Node.classes : Node → List String
  | .mk _ c _ _ _ _ => c

def Node.attrs : Node → List (String × String)
  | .mk _ _ a _ _ _ => a

def Node.text : Node → String
  | .mk _ _ _ s _ _ => s

def Node.broken : Node → Bool
  | .mk _ _ _ _ b _ => b

def Node.children : Node → List Node
  | .mk _ _ _ _ _ cs => cs

mutual
/-- The node followed by all of its descendants, in document (preorder) order. -/
def Node.selfAndDescendants : Node → List Node
  | .mk t c a s b cs => .mk t c a s b cs :: descendantsInList cs

/-- All nodes of a forest, in document (preorder) order. -/
def descendantsInList : List Node → List Node
  | [] => []
  | n :: ns => n.selfAndDescendants ++ descendantsInList ns
end

/-- `soup.find_all(...)`: all matching nodes of the document, in document order. -/
def findAllForest (doc : List Node) (p : Node → Bool) : List Node :=
  (descendantsInList doc).filter p

/-- `element.find(...)`: the first matching descendant of a node (excluding the
node itself). -/
def Node.findFirst (n : Node) (p : Node → Bool) : Option Node :=
  (descendantsInList n.children).find? p

/-- Class membership test, as in BeautifulSoup's `class_=` filter. -/
def hasClass (n : Node) (c : String) : Bool :=
  n.classes.contains c

/-- Attribute equality test, as in BeautifulSoup's `attrs` filter. -/
def hasAttr (n : Node) (k v : String) : Bool :=
  n.attrs.contains (k, v)

/-- Surrounding-whitespace removal on a character list. -/
def stripChars (cs : List Char) : List Char :=
  ((cs.dropWhile Char.isWhitespace).reverse.dropWhile Char.isWhitespace).reverse

/-- Python's `str.strip()`, applied by `get_text(strip=True)` to each text
fragment. -/
def stripText (s : String) : String :=
  ⟨stripChars s.data⟩

/-- `get_text(strip=True)`: each text fragment of the subtree, stripped of
surrounding whitespace, concatenated in document order. -/
def Node.getText (n : Node) : String :=
  String.join (n.selfAndDescendants.map (fun m => stripText m.text))

/-- Whether extracting this node's text raises an exception. -/
def Node.textRaises (n : Node) : Bool :=
  n.selfAndDescendants.any Node.broken

/-- Effectful text extraction: raises when the subtree holds a broken node. -/
def Node.getTextE (n : Node) : Except Unit String :=
  if n.textRaises then .error () else .ok n.getText

/-! ## Field selectors of `_extract_part_info` (src/main.py lines 185-225)

Each field uses its own ordered fallback, mirroring Python's
`element.find(...) or element.find(...)`. -/

def byClass (c : String) : Node → Bool :=
  fun n => hasClass n c

def tdTitled (v : String) : Node → Bool :=
  fun n => n.tag == "td" && hasAttr n "data-title" v

def selArticle (e : Node) : Option Node :=
  (e.findFirst (byClass "article")) <|> (e.findFirst (tdTitled "Артикул"))

def selName (e : Node) : Option Node :=
  (e.findFirst (byClass "name")) <|> (e.findFirst (byClass "part-name"))

def selPrice (e : Node) : Option Node :=
  (e.findFirst (byClass "price")) <|> (e.findFirst (tdTitled "Цена"))

def selAvailability (e : Node) : Option Node :=
  (e.findFirst (byClass "availability")) <|> (e.findFirst (tdTitled "Наличие"))

def selManufacturer (e : Node) : Option Node :=
  (e.findFirst (byClass "manufacturer")) <|> (e.findFirst (byClass "brand"))

def selDelivery (e : Node) : Option Node :=
  (e.findFirst (byClass "delivery")) <|> (e.findFirst (tdTitled "Срок"))

/-- A part listing record: the Python dict built by `_extract_part_info`.
A `none` field is a key never assigned; `some ""` is a key assigned the
empty string (an element was found but its text was empty). -/
structure PartInfo where
  article : Option String
  name : Option String
  price : Option String
  availability : Option String
  manufacturer : Option String
  delivery_time : Option String
deriving DecidableEq, Repr

/-- The empty dict `{}`. -/
def emptyInfo : PartInfo :=
  ⟨none, none, none, none, none, none⟩

/-- One field step: if the selector matched, extract the node's text (which
may raise); otherwise leave the key unassigned. -/
def fieldText : Option Node → Except Unit (Option String)
  | none => .ok none
  | some x => (x.getTextE).map some

/-- The body of `_extract_part_info` inside its `try`: fields are extracted
sequentially, and an exception at any `get_text` aborts the rest. -/
def extractInfoE (e : Node) : Except Unit PartInfo := do
  let a ← fieldText (selArticle e)
  let n ← fieldText (selName e)
  let p ← fieldText (selPrice e)
  let av ← fieldText (selAvailability e)
  let m ← fieldText (selManufacturer e)
  let d ← fieldText (selDelivery e)
  pure ⟨a, n, p, av, m, d⟩

/-- `_extract_part_info`: the `except` returns `None`; an empty dict is
falsy, so `return part_info if part_info else None` drops it. -/
def extract_part_info (e : Node) : Option PartInfo :=
  match extractInfoE e with
  | .error _ => none
  | .ok info => if info = emptyInfo then none else some info

/-! ## Candidate location in `_parse_parts_from_html` (lines 160-183) -/

def listingStrategy1 (doc : List Node) : List Node :=
  findAllForest doc (fun n => n.tag == "div" && hasClass n "part-item")

def listingStrategy2 (doc : List Node) : List Node :=
  findAllForest doc (fun n => n.tag == "tr" && hasClass n "search-row")

def listingStrategy3 (doc : List Node) : List Node :=
  findAllForest doc (fun n => n.tag == "div" && hasAttr n "data-type" "part")

/-- Python's `or` on lists: the left operand unless it is empty. -/
def listOrElse (a b : List Node) : List Node :=
  if a.isEmpty then b else a

def candidateListingNodes (doc : List Node) : List Node :=
  listOrElse (listingStrategy1 doc)
    (listOrElse (listingStrategy2 doc) (listingStrategy3 doc))

/-- `_parse_parts_from_html`: per-node failures are absorbed inside
`_extract_part_info` (which returns `None`), so the loop is a `filterMap`;
the outer `except` of the source can only fire on failures the loop body
itself cannot produce. -/
def parse_parts_from_html (doc : List Node) : List PartInfo :=
  (candidateListingNodes doc).filterMap extract_part_info

/-! ## Offers: `_parse_part_details` (lines 251-293) -/

/-- An offer record: the dict initialised with four `None` values. -/
structure Offer where
  price : Option String
  availability : Option String
  warehouse : Option String
  delivery_time : Option String
deriving DecidableEq, Repr

def selOfferPrice (e : Node) : Option Node :=
  e.findFirst (byClass "price")

def selOfferAvailability (e : Node) : Option Node :=
  e.findFirst (byClass "availability")

def selOfferWarehouse (e : Node) : Option Node :=
  e.findFirst (byClass "warehouse")

def selOfferDelivery (e : Node) : Option Node :=
  e.findFirst (byClass "delivery")

/-- The body of one offer-loop iteration: sequential field extraction; an
exception propagates out (there is no per-node handler here). -/
def extractOfferE (e : Node) : Except Unit Offer := do
  let p ← fieldText (selOfferPrice e)
  let a ← fieldText (selOfferAvailability e)
  let w ← fieldText (selOfferWarehouse e)
  let d ← fieldText (selOfferDelivery e)
  pure ⟨p, a, w, d⟩

/-- Python truthiness of a dict value: `None` and `""` are falsy. -/
def truthyOptStr : Option String → Bool
  | none => false
  | some s => !(s == "")

/-- `any(offer_data.values())`. -/
def Offer.truthy (o : Offer) : Bool :=
  truthyOptStr o.price || truthyOptStr o.availability ||
    truthyOptStr o.warehouse || truthyOptStr o.delivery_time

def offerStrategy1 (doc : List Node) : List Node :=
  findAllForest doc (fun n => n.tag == "div" && hasClass n "offer-item")

def offerStrategy2 (doc : List Node) : List Node :=
  findAllForest doc (fun n => n.tag == "tr" && hasClass n "offer-row")

/-- Candidate location for offers: the source tries only two selectors
(lines 259-260). -/
def candidateOfferNodes (doc : List Node) : List Node :=
  listOrElse (offerStrategy1 doc) (offerStrategy2 doc)

/-- The offer loop under the blanket `try` of `_parse_part_details`: an
exception while handling one node returns the offers accumulated so far,
abandoning the remaining nodes. -/
def offersLoop : List Node → List Offer → List Offer
  | [], acc => acc
  | n :: rest, acc =>
    match extractOfferE n with
    | .error _ => acc
    | .ok o => offersLoop rest (if o.truthy then acc ++ [o] else acc)

/-- `{'article': article, 'offers': [...]}`. -/
structure DetailResult where
  article : String
  offers : List Offer
deriving DecidableEq, Repr

/-- `_parse_part_details`: the dict is initialised before the `try`, so the
article and the accumulated offers are returned even when the loop raises. -/
def parse_part_details (doc : List Node) (article : String) : DetailResult :=
  ⟨article, offersLoop (candidateOfferNodes doc) []⟩

/-! ## Outbound HTTP calls and the VIN decoder (`decode_vin`, lines 77-116) -/

/-- One outbound HTTP request issued by the program. -/
inductive OutCall : Type where
  | decodeReq (url : String)
  | pageReq (url : String)
  | authReq (url : String)
deriving DecidableEq, Repr

/-- The decode service's reply, already parsed: the HTTP status and the
`Results` items, each a `(Variable, Value)` pair where either key may be
absent from the JSON object (`item.get` returns `None` then). -/
structure DecodeHttpResponse where
  status : Nat
  results : List (Option String × Option String)

def invalidVinMsg : String :=
  "Неверный формат VIN кода. Должно быть 17 символов."

def decodeFailedMsg : String :=
  "Не удалось декодировать VIN"

def nhtsaUrl (vin : String) : String :=
  "https://vpic.nhtsa.dot.gov/api/vehicles/DecodeVin/" ++ vin ++ "?format=json"

/-- The result dict of `decode_vin`: either `{'error', 'vin'}` or
`{'vin', 'vehicle_info', 'decoded'}`. -/
inductive DecodeResult : Type where
  | failure (error : String) (vin : String)
  | success (vin : String) (vehicle_info : List (Option String × String))
      (decoded : Bool)
deriving DecidableEq, Repr

/-- `item.get('Value')` truthiness: absent and empty values are falsy. -/
def truthyVal : Option String → Bool
  | none => false
  | some s => !(s == "")

/-- Python dict assignment `d[k] = v`: overwrite in place when the key is
present, append otherwise. -/
def dictInsert (d : List (Option String × String)) (k : Option String)
    (v : String) : List (Option String × String) :=
  if d.any (fun p => p.1 = k) then
    d.map (fun p => if p.1 = k then (k, v) else p)
  else d ++ [(k, v)]

/-- The `vehicle_info` loop of `decode_vin` (lines 95-98). -/
def buildVehicleInfo (results : List (Option String × Option String)) :
    List (Option String × String) :=
  results.foldl
    (fun d item =>
      if truthyVal item.2 then dictInsert d item.1 (item.2.getD "") else d)
    []

/-- `decode_vin`: length validation before any request; the request is
issued only on valid input, and only a literal 200 status is accepted. -/
def decode_vin (vin : String) (resp : DecodeHttpResponse) :
    DecodeResult × List OutCall :=
  if vin = "" ∨ vin.length ≠ 17 then
    (.failure invalidVinMsg vin, [])
  else if resp.status = 200 then
    (.success vin (buildVehicleInfo resp.results) true,
      [.decodeReq (nhtsaUrl vin)])
  else
    (.failure decodeFailedMsg vin, [.decodeReq (nhtsaUrl vin)])

/-! ## `search_parts_by_vin` (lines 118-158) -/

/-- A fetched page: HTTP status and the parsed document. -/
structure PageResponse where
  status : Nat
  doc : List Node

/-- The two upstream replies a search may consume. -/
structure SearchNet where
  decodeResp : DecodeHttpResponse
  pageResp : PageResponse

/-- The result dict of `search_parts_by_vin` (the wall-clock timestamp of
the source is not modelled). -/
inductive SearchResult : Type where
  | failure (error : String) (vin : String)
  | success (vin : String) (vehicle_info : List (Option String × String))
      (parts : List PartInfo) (total_parts : Nat)

def emexBase : String := "https://emex.ru"

def searchUrl (vin : String) (part_name : Option String) : String :=
  emexBase ++ "/search/vin/" ++ vin ++
    (match part_name with
     | some q => "?query=" ++ q
     | none => "")

def emexFetchErr (status : Nat) : String :=
  "Ошибка при запросе к emex.ru: " ++ toString status

/-- `search_parts_by_vin`: decode first; a decode error dict (it contains
the `'error'` key) is returned as is and the page is never fetched. -/
def search_parts_by_vin (vin : String) (part_name : Option String)
    (net : SearchNet) : SearchResult × List OutCall :=
  match decode_vin vin net.decodeResp with
  | (.failure e v, calls) => (.failure e v, calls)
  | (.success _ vinfo _, calls) =>
    let calls := calls ++ [.pageReq (searchUrl vin part_name)]
    if net.pageResp.status ≠ 200 then
      (.failure (emexFetchErr net.pageResp.status) vin, calls)
    else
      let parts := parse_parts_from_html net.pageResp.doc
      (.success vin vinfo parts parts.length, calls)

/-! ## `get_part_details` (lines 227-249) -/

inductive DetailOutcome : Type where
  | failure (error : String) (article : String)
  | success (details : DetailResult)
deriving DecidableEq, Repr

def articleFetchErr (status : Nat) : String :=
  "Ошибка при запросе: " ++ toString status

def articleUrl (article : String) : String :=
  emexBase ++ "/search/articles/" ++ article

/-- `get_part_details`: the request is always issued; only a literal 200
status proceeds to parsing. -/
def get_part_details (article : String) (resp : PageResponse) :
    DetailOutcome × List OutCall :=
  if resp.status ≠ 200 then
    (.failure (articleFetchErr resp.status) article,
      [.pageReq (articleUrl article)])
  else
    (.success (parse_part_details resp.doc article),
      [.pageReq (articleUrl article)])

/-! ## The authentication endpoint (`authenticate`, lines 350-370) -/

/-- Python truthiness of an optional string. -/
def truthyStr : Option String → Bool
  | none => false
  | some s => !(s == "")

/-- The process-wide `EmexVINParser` instance's relevant state. -/
structure ParserState where
  username : Option String
  password : Option String
  is_authenticated : Bool
deriving DecidableEq, Repr

/-- The `EMEX_USERNAME` / `EMEX_PASSWORD` environment. -/
structure Env where
  emexUsername : Option String
  emexPassword : Option String

/-- `EmexVINParser.__init__`: `username or os.getenv('EMEX_USERNAME')`. -/
def newParser (username password : Option String) (env : Env) : ParserState :=
  ⟨(if truthyStr username then username else env.emexUsername),
   (if truthyStr password then password else env.emexPassword),
   false⟩

def loginUrl : String := emexBase ++ "/auth/login"

/-- `EmexVINParser.authenticate` (lines 50-75): no credentials means no
request; otherwise a POST whose literal-200 reply flips the flag. -/
def parserAuthenticate (p : ParserState) (respStatus : Nat) :
    (Bool × ParserState) × List OutCall :=
  if ¬truthyStr p.username ∨ ¬truthyStr p.password then
    ((false, p), [])
  else if respStatus = 200 then
    ((true, { p with is_authenticated := true }), [.authReq loginUrl])
  else
    ((false, p), [.authReq loginUrl])

def credsRequiredMsg : String := "Username и password обязательны"

/-- The JSON reply of the `/api/authenticate` route together with its HTTP
status code. -/
structure AuthResponse where
  status : Nat
  authenticated : Option Bool
  message : String
deriving DecidableEq, Repr

/-- The `/api/authenticate` route: the 400 check precedes the construction
of the new parser and the outbound POST; on the happy path the global
parser is replaced wholesale. -/
def authenticate_route (username password : Option String) (env : Env)
    (st : ParserState) (respStatus : Nat) :
    AuthResponse × ParserState × List OutCall :=
  if ¬truthyStr username ∨ ¬truthyStr password then
    (⟨400, none, credsRequiredMsg⟩, st, [])
  else
    let p := newParser username password env
    let r := parserAuthenticate p respStatus
    (⟨200, some r.1.1,
       if r.1.1 then "Успешная аутентификация" else "Ошибка аутентификации"⟩,
     r.1.2, r.2)

/-! ## Helper lemmas -/

lemma listOrElse_of_ne_nil (a b : List Node) (h : a ≠ []) :
    listOrElse a b = a := by
  unfold listOrElse
  rw [if_neg]
  simpa [List.isEmpty_iff] using h

lemma listOrElse_of_nil (b : List Node) : listOrElse [] b = b := rfl

/-! ## Claims -/

/-- C1 (counterexample): the claim asserts that candidate-node location in
the offers mode, too, tries three strategies ending in an attribute-based
match.  The offers locator (src/main.py lines 259-260) has only two
strategies; a document whose single node carries the attribute-based
signature (and matches no class strategy) yields no offer candidate at
all, while in listings mode the attribute-based third strategy does find
it. -/
def decoyAttrNode : Node :=
  .mk "div" [] [("data-type", "part")] "decoy" false []

theorem c1_counterexample :
    candidateOfferNodes [decoyAttrNode] = [] ∧
      candidateListingNodes [decoyAttrNode] = [decoyAttrNode] :=
  ⟨rfl, rfl⟩

/-- C1 (amended): listings-mode location tries three ordered strategies
(class `part-item`, table-row `search-row`, attribute `data-type=part`) and
offers-mode location tries only two (class `offer-item`, table-row
`offer-row`); in both modes the first strategy producing at least one node
wins and later strategies contribute nothing. -/
theorem c1_ordered_strategies (doc : List Node) :
    (listingStrategy1 doc ≠ [] →
      candidateListingNodes doc = listingStrategy1 doc) ∧
    (listingStrategy1 doc = [] → listingStrategy2 doc ≠ [] →
      candidateListingNodes doc = listingStrategy2 doc) ∧
    (listingStrategy1 doc = [] → listingStrategy2 doc = [] →
      candidateListingNodes doc = listingStrategy3 doc) ∧
    (offerStrategy1 doc ≠ [] →
      candidateOfferNodes doc = offerStrategy1 doc) ∧
    (offerStrategy1 doc = [] →
      candidateOfferNodes doc = offerStrategy2 doc) := by
  unfold candidateListingNodes candidateOfferNodes
  refine ⟨fun h1 => ?_, fun h1 h2 => ?_, fun h1 h2 => ?_, fun h1 => ?_,
    fun h1 => ?_⟩
  · exact listOrElse_of_ne_nil _ _ h1
  · rw [h1, listOrElse_of_nil, listOrElse_of_ne_nil _ _ h2]
  · rw [h1, h2, listOrElse_of_nil, listOrElse_of_nil]
  · exact listOrElse_of_ne_nil _ _ h1
  · rw [h1, listOrElse_of_nil]

/-- A strategy-1 listing node used by the C1 witness. -/
def s1ListingNode : Node :=
  .mk "div" ["part-item"] [] "" false
    [.mk "span" ["name"] [] "gasket" false []]

theorem c1_ordered_strategies_witness :
    candidateListingNodes [s1ListingNode, decoyAttrNode] =
        listingStrategy1 [s1ListingNode, decoyAttrNode] ∧
      candidateListingNodes [s1ListingNode, decoyAttrNode] = [s1ListingNode] :=
  ⟨(c1_ordered_strategies [s1ListingNode, decoyAttrNode]).1
      (List.cons_ne_nil _ _),
    rfl⟩

/-- C4: an empty VIN, or one whose length differs from 17, is rejected as
`InvalidVinFormat` carrying the original input before any network call is
issued (src/main.py lines 81-85). -/
theorem c4_invalid_vin_rejected (vin : String) (resp : DecodeHttpResponse)
    (h : vin = "" ∨ vin.length ≠ 17) :
    decode_vin vin resp = (.failure invalidVinMsg vin, []) := by
  unfold decode_vin
  rw [if_pos h]

theorem c4_invalid_vin_rejected_witness :
    decode_vin "SHORT" ⟨200, [(some "Make", some "Toyota")]⟩ =
      (.failure invalidVinMsg "SHORT", []) :=
  c4_invalid_vin_rejected "SHORT" ⟨200, [(some "Make", some "Toyota")]⟩
    (Or.inr (by decide))

/-- C8: when all three listing strategies match nothing, extraction returns
the empty list as a successful outcome (src/main.py lines 168-178); the
function is total, so no error value or exception is possible. -/
theorem c8_no_match_yields_empty (doc : List Node)
    (h1 : listingStrategy1 doc = []) (h2 : listingStrategy2 doc = [])
    (h3 : listingStrategy3 doc = []) :
    parse_parts_from_html doc = [] := by
  unfold parse_parts_from_html candidateListingNodes
  rw [h1, h2, h3, listOrElse_of_nil, listOrElse_of_nil]
  rfl

/-- A document with no part-related markup at all. -/
def plainDoc : List Node :=
  [.mk "p" [] [] "hello" false []]

theorem c8_no_match_yields_empty_witness :
    parse_parts_from_html plainDoc = [] :=
  c8_no_match_yields_empty plainDoc rfl rfl rfl

/-- C9: a POST to `/api/authenticate` whose JSON body lacks `username` or
`password` is answered with HTTP 400 before the global parser is replaced
and before any outbound request (src/main.py lines 358-359): the state is
returned unchanged and the call list is empty. -/
theorem c9_missing_credentials_reject (username password : Option String)
    (env : Env) (st : ParserState) (respStatus : Nat)
    (h : username = none ∨ password = none) :
    authenticate_route username password env st respStatus =
      (⟨400, none, credsRequiredMsg⟩, st, []) := by
  unfold authenticate_route
  rw [if_pos]
  rcases h with h | h
  · exact Or.inl (by simp [h, truthyStr])
  · exact Or.inr (by simp [h, truthyStr])

theorem c9_missing_credentials_reject_witness :
    authenticate_route (some "alice") none ⟨none, none⟩
        ⟨none, none, false⟩ 200 =
      (⟨400, none, credsRequiredMsg⟩, ⟨none, none, false⟩, []) :=
  c9_missing_credentials_reject (some "alice") none ⟨none, none⟩
    ⟨none, none, false⟩ 200 (Or.inr rfl)

/-! ## C5: the vehicle_info construction -/

/-- The pairs of a decode payload whose `Value` is a non-empty string, as
`(Variable, Value)` entries. -/
def truthyPairs (results : List (Option String × Option String)) :
    List (Option String × String) :=
  results.filterMap (fun it =>
    match it.2 with
    | some v => if v = "" then none else some (it.1, v)
    | none => none)

lemma dictInsert_of_not_mem (d : List (Option String × String))
    (k : Option String) (v : String) (h : ∀ p ∈ d, p.1 ≠ k) :
    dictInsert d k v = d ++ [(k, v)] := by
  unfold dictInsert
  rw [if_neg]
  simp only [List.any_eq_true, decide_eq_true_eq, not_exists, not_and]
  exact h

lemma buildVehicleInfo_go (results : List (Option String × Option String))
    (acc : List (Option String × String))
    (hdisj : ∀ p ∈ acc, p.1 ∉ results.map Prod.fst)
    (hnd : (results.map Prod.fst).Nodup) :
    results.foldl
      (fun d item =>
        if truthyVal item.2 then dictInsert d item.1 (item.2.getD "") else d)
      acc = acc ++ truthyPairs results := by
  induction results generalizing acc with
  | nil => simp [truthyPairs]
  | cons it rest ih =>
    simp only [List.map_cons, List.nodup_cons] at hnd
    simp only [List.foldl_cons]
    by_cases ht : truthyVal it.2 = true
    · obtain ⟨v, hv2, hvne⟩ : ∃ v, it.2 = some v ∧ v ≠ "" := by
        cases h2 : it.2 with
        | none => rw [h2] at ht; exact absurd ht (by simp [truthyVal])
        | some v =>
          refine ⟨v, rfl, ?_⟩
          rw [h2] at ht
          simpa [truthyVal] using ht
      rw [if_pos ht]
      rw [dictInsert_of_not_mem acc it.1 (it.2.getD "")
        (fun p hp => by
          have := hdisj p hp
          simp only [List.map_cons, List.mem_cons, not_or] at this
          exact this.1)]
      rw [ih (acc ++ [(it.1, it.2.getD "")])
        (by
          intro p hp
          rcases List.mem_append.mp hp with hp | hp
          · have := hdisj p hp
            simp only [List.map_cons, List.mem_cons, not_or] at this
            exact this.2
          · rw [List.mem_singleton] at hp
            subst hp
            exact hnd.1)
        hnd.2]
      rw [List.append_assoc]
      congr 1
      unfold truthyPairs
      rw [List.filterMap_cons]
      simp [hv2, hvne]
    · rw [if_neg ht]
      rw [ih acc
        (fun p hp => by
          have := hdisj p hp
          simp only [List.map_cons, List.mem_cons, not_or] at this
          exact this.2)
        hnd.2]
      congr 1
      unfold truthyPairs
      rw [List.filterMap_cons]
      have : it.2 ≠ some "" → it.2 = none := by
        cases h2 : it.2 with
        | none => simp
        | some v =>
          intro hne
          rw [h2] at ht
          simp [truthyVal] at ht
          subst ht
          exact absurd rfl hne
      by_cases h2 : it.2 = some ""
      · simp [h2]
      · simp [this h2]

/-- C5: on a literal-200 decode response whose `Results` list is a map (its
`Variable` keys are pairwise distinct), `vehicle_info` is exactly the list
of `(Variable, Value)` pairs with a non-empty `Value`; pairs with an empty
or absent `Value` are omitted entirely (src/main.py lines 95-98). -/
theorem c5_vehicle_info_filters_empty (vin : String)
    (results : List (Option String × Option String))
    (hvin : ¬(vin = "" ∨ vin.length ≠ 17))
    (hnd : (results.map Prod.fst).Nodup) :
    decode_vin vin ⟨200, results⟩ =
      (.success vin (truthyPairs results) true,
        [.decodeReq (nhtsaUrl vin)]) := by
  unfold decode_vin
  rw [if_neg hvin, if_pos rfl]
  unfold buildVehicleInfo
  rw [buildVehicleInfo_go results [] (by simp) hnd]
  simp

/-- The round-trip example of the spec: `Make -> Toyota` is kept, the empty
`Model` is excluded. -/
theorem c5_vehicle_info_filters_empty_witness :
    decode_vin "1HGCM82633A004352"
        ⟨200, [(some "Make", some "Toyota"), (some "Model", some "")]⟩ =
      (.success "1HGCM82633A004352" [(some "Make", "Toyota")] true,
        [.decodeReq (nhtsaUrl "1HGCM82633A004352")]) :=
  c5_vehicle_info_filters_empty "1HGCM82633A004352"
    [(some "Make", some "Toyota"), (some "Model", some "")]
    (by decide) (by decide)

/-! ## C6 and C7: orchestrator error propagation and status handling -/

lemma decode_vin_calls (vin : String) (resp : DecodeHttpResponse) :
    (decode_vin vin resp).2 = [] ∨
      (decode_vin vin resp).2 = [.decodeReq (nhtsaUrl vin)] := by
  unfold decode_vin
  by_cases h : vin = "" ∨ vin.length ≠ 17
  · rw [if_pos h]
    exact Or.inl rfl
  · rw [if_neg h]
    by_cases h2 : resp.status = 200
    · rw [if_pos h2]
      exact Or.inr rfl
    · rw [if_neg h2]
      exact Or.inr rfl

/-- C6: when the VIN decode step fails, `search_parts_by_vin` returns the
decoder's error dict unchanged (`return vin_info`, src/main.py line 125) —
same message, same VIN tag, same call list — and the emex page is never
fetched: no `pageReq` appears among the outbound calls. -/
theorem c6_decode_error_propagates (vin : String) (part_name : Option String)
    (net : SearchNet) (e v : String) (calls : List OutCall)
    (h : decode_vin vin net.decodeResp = (.failure e v, calls)) :
    search_parts_by_vin vin part_name net = (.failure e v, calls) ∧
      ∀ u, OutCall.pageReq u ∉ calls := by
  constructor
  · unfold search_parts_by_vin
    rw [h]
  · intro u hu
    have hc : (decode_vin vin net.decodeResp).2 = calls := by rw [h]
    rcases decode_vin_calls vin net.decodeResp with h2 | h2 <;>
      rw [hc] at h2 <;> subst h2 <;> simp at hu

theorem c6_decode_error_propagates_witness :
    search_parts_by_vin "SHORT" none ⟨⟨200, []⟩, ⟨200, []⟩⟩ =
        (.failure invalidVinMsg "SHORT", []) ∧
      ∀ u, OutCall.pageReq u ∉ ([] : List OutCall) :=
  c6_decode_error_propagates "SHORT" none ⟨⟨200, []⟩, ⟨200, []⟩⟩
    invalidVinMsg "SHORT" [] rfl

/-- A syntactically valid 17-character VIN. -/
def vin17 : String := "1HGCM82633A004352"

/-- C7 (counterexample): a 201 status — a 2xx success — does not proceed
to parsing: the decoder returns its fixed error message (which, contrary
to the claim, carries no status code), and `get_part_details` also turns
201 into an error envelope. -/
theorem c7_counterexample :
    (decode_vin vin17 ⟨201, [(some "Make", some "Toyota")]⟩).1 =
        .failure decodeFailedMsg vin17 ∧
      (get_part_details "A1" ⟨201, []⟩).1 =
        .failure (articleFetchErr 201) "A1" :=
  ⟨rfl, rfl⟩

/-- C7 (amended): both external calls accept exactly the literal status
200: any other status — including other 2xx codes — yields an error
result, and status 200 proceeds to parsing.  The page-fetch error
messages embed the status code; the decode error is a fixed message
without it (src/main.py lines 91, 105-109, 135-139, 233-237). -/
theorem c7_only_200_proceeds (status : Nat) (vin a : String)
    (part_name : Option String)
    (results : List (Option String × Option String)) (doc pdoc : List Node)
    (hvin : ¬(vin = "" ∨ vin.length ≠ 17)) (h : status ≠ 200) :
    (decode_vin vin ⟨status, results⟩).1 = .failure decodeFailedMsg vin ∧
    (decode_vin vin ⟨200, results⟩).1 =
      .success vin (buildVehicleInfo results) true ∧
    (get_part_details a ⟨status, doc⟩).1 =
      .failure (articleFetchErr status) a ∧
    (get_part_details a ⟨200, doc⟩).1 =
      .success (parse_part_details doc a) ∧
    (search_parts_by_vin vin part_name ⟨⟨200, results⟩, ⟨status, pdoc⟩⟩).1 =
      .failure (emexFetchErr status) vin ∧
    (search_parts_by_vin vin part_name ⟨⟨200, results⟩, ⟨200, pdoc⟩⟩).1 =
      .success vin (buildVehicleInfo results) (parse_parts_from_html pdoc)
        (parse_parts_from_html pdoc).length := by
  have hd : decode_vin vin ⟨200, results⟩ =
      (.success vin (buildVehicleInfo results) true,
        [.decodeReq (nhtsaUrl vin)]) := by
    unfold decode_vin
    rw [if_neg hvin, if_pos rfl]
  refine ⟨?_, ?_, ?_, ?_, ?_, ?_⟩
  · unfold decode_vin
    rw [if_neg hvin, if_neg h]
  · rw [hd]
  · unfold get_part_details
    rw [if_pos h]
  · unfold get_part_details
    rw [if_neg (by simp)]
  · unfold search_parts_by_vin
    rw [hd]
    simp only
    rw [if_pos h]
  · unfold search_parts_by_vin
    rw [hd]
    simp only
    rw [if_neg (by simp)]

theorem c7_only_200_proceeds_witness :
    (decode_vin vin17 ⟨404, []⟩).1 = .failure decodeFailedMsg vin17 ∧
    (decode_vin vin17 ⟨200, []⟩).1 =
      .success vin17 (buildVehicleInfo []) true ∧
    (get_part_details "A1" ⟨404, []⟩).1 =
      .failure (articleFetchErr 404) "A1" ∧
    (get_part_details "A1" ⟨200, []⟩).1 =
      .success (parse_part_details [] "A1") ∧
    (search_parts_by_vin vin17 none ⟨⟨200, []⟩, ⟨404, []⟩⟩).1 =
      .failure (emexFetchErr 404) vin17 ∧
    (search_parts_by_vin vin17 none ⟨⟨200, []⟩, ⟨200, []⟩⟩).1 =
      .success vin17 (buildVehicleInfo []) (parse_parts_from_html [])
        (parse_parts_from_html []).length :=
  c7_only_200_proceeds 404 vin17 "A1" none [] [] [] (by decide) (by decide)

/-! ## Extraction semantics helpers for C2, C3, C10 -/

lemma fieldText_eq (o : Option Node)
    (h : o.all (fun x => !x.textRaises) = true) :
    fieldText o = .ok (o.map Node.getText) := by
  cases o with
  | none => rfl
  | some x =>
    rw [Option.all_some, Bool.not_eq_true'] at h
    simp [fieldText, Node.getTextE, h, Except.map]

lemma extractInfoE_eq (e : Node)
    (h1 : (selArticle e).all (fun x => !x.textRaises) = true)
    (h2 : (selName e).all (fun x => !x.textRaises) = true)
    (h3 : (selPrice e).all (fun x => !x.textRaises) = true)
    (h4 : (selAvailability e).all (fun x => !x.textRaises) = true)
    (h5 : (selManufacturer e).all (fun x => !x.textRaises) = true)
    (h6 : (selDelivery e).all (fun x => !x.textRaises) = true) :
    extractInfoE e = .ok
      ⟨(selArticle e).map Node.getText, (selName e).map Node.getText,
       (selPrice e).map Node.getText, (selAvailability e).map Node.getText,
       (selManufacturer e).map Node.getText,
       (selDelivery e).map Node.getText⟩ := by
  unfold extractInfoE
  simp only [fieldText_eq _ h1, fieldText_eq _ h2, fieldText_eq _ h3,
    fieldText_eq _ h4, fieldText_eq _ h5, fieldText_eq _ h6]
  rfl

lemma extractOfferE_eq (e : Node)
    (g1 : (selOfferPrice e).all (fun x => !x.textRaises) = true)
    (g2 : (selOfferAvailability e).all (fun x => !x.textRaises) = true)
    (g3 : (selOfferWarehouse e).all (fun x => !x.textRaises) = true)
    (g4 : (selOfferDelivery e).all (fun x => !x.textRaises) = true) :
    extractOfferE e = .ok
      ⟨(selOfferPrice e).map Node.getText,
       (selOfferAvailability e).map Node.getText,
       (selOfferWarehouse e).map Node.getText,
       (selOfferDelivery e).map Node.getText⟩ := by
  unfold extractOfferE
  simp only [fieldText_eq _ g1, fieldText_eq _ g2, fieldText_eq _ g3,
    fieldText_eq _ g4]
  rfl

lemma extract_part_info_of_ok (e : Node) (info : PartInfo)
    (h : extractInfoE e = .ok info) :
    extract_part_info e = if info = emptyInfo then none else some info := by
  unfold extract_part_info
  rw [h]

/-! ## C2: which nodes survive filtering -/

/-- A listing node whose only matched field element exists but has empty
text. -/
def emptyTextListing : Node :=
  .mk "div" ["part-item"] [] "" false
    [.mk "span" ["article"] [] "" false []]

/-- C2 (counterexample): the claim says a node contributing zero non-empty
fields is absent from the listings output.  A listing node whose `article`
element matches but has empty text is stored as `{'article': ''}` — a
non-empty, truthy dict — so the record survives although every field it
contributes is empty (src/main.py lines 191-193, 221). -/
theorem c2_counterexample :
    parse_parts_from_html [emptyTextListing] =
      [⟨some "", none, none, none, none, none⟩] :=
  rfl

/-- C2 (amended): in listings mode a node is dropped exactly when no field
selector matches any element; a kept record carries exactly the matched
fields, each holding the element's (possibly empty) stripped text, with
unmatched fields absent — so a node whose matched fields are all empty
strings is still kept.  In offers mode a successfully traversed node is
kept, appended to the accumulator, exactly when some extracted value is a
non-empty string; a kept record holds the extracted values with unmatched
fields null.  (Stated for nodes whose traversal raises no exception.) -/
theorem c2_field_population (e : Node)
    (h1 : (selArticle e).all (fun x => !x.textRaises) = true)
    (h2 : (selName e).all (fun x => !x.textRaises) = true)
    (h3 : (selPrice e).all (fun x => !x.textRaises) = true)
    (h4 : (selAvailability e).all (fun x => !x.textRaises) = true)
    (h5 : (selManufacturer e).all (fun x => !x.textRaises) = true)
    (h6 : (selDelivery e).all (fun x => !x.textRaises) = true)
    (g1 : (selOfferPrice e).all (fun x => !x.textRaises) = true)
    (g2 : (selOfferAvailability e).all (fun x => !x.textRaises) = true)
    (g3 : (selOfferWarehouse e).all (fun x => !x.textRaises) = true)
    (g4 : (selOfferDelivery e).all (fun x => !x.textRaises) = true) :
    (extract_part_info e = none ↔
      selArticle e = none ∧ selName e = none ∧ selPrice e = none ∧
        selAvailability e = none ∧ selManufacturer e = none ∧
        selDelivery e = none) ∧
    (∀ info, extract_part_info e = some info →
      info = ⟨(selArticle e).map Node.getText, (selName e).map Node.getText,
        (selPrice e).map Node.getText, (selAvailability e).map Node.getText,
        (selManufacturer e).map Node.getText,
        (selDelivery e).map Node.getText⟩) ∧
    (extractOfferE e = .ok
      ⟨(selOfferPrice e).map Node.getText,
       (selOfferAvailability e).map Node.getText,
       (selOfferWarehouse e).map Node.getText,
       (selOfferDelivery e).map Node.getText⟩) ∧
    (∀ rest acc o, extractOfferE e = .ok o →
      offersLoop (e :: rest) acc =
        offersLoop rest (if o.truthy then acc ++ [o] else acc)) := by
  have hE := extractInfoE_eq e h1 h2 h3 h4 h5 h6
  have hO := extractOfferE_eq e g1 g2 g3 g4
  refine ⟨?_, ?_, hO, ?_⟩
  · rw [extract_part_info_of_ok e _ hE]
    by_cases hc : (⟨(selArticle e).map Node.getText,
        (selName e).map Node.getText, (selPrice e).map Node.getText,
        (selAvailability e).map Node.getText,
        (selManufacturer e).map Node.getText,
        (selDelivery e).map Node.getText⟩ : PartInfo) = emptyInfo
    · rw [if_pos hc]
      simp only [emptyInfo, PartInfo.mk.injEq, Option.map_eq_none'] at hc
      simp [hc]
    · rw [if_neg hc]
      simp only [emptyInfo, PartInfo.mk.injEq, Option.map_eq_none'] at hc
      exact iff_of_false (Option.some_ne_none _) hc
  · intro info h
    rw [extract_part_info_of_ok e _ hE] at h
    by_cases hc : (⟨(selArticle e).map Node.getText,
        (selName e).map Node.getText, (selPrice e).map Node.getText,
        (selAvailability e).map Node.getText,
        (selManufacturer e).map Node.getText,
        (selDelivery e).map Node.getText⟩ : PartInfo) = emptyInfo
    · rw [if_pos hc] at h
      exact absurd h (by simp)
    · rw [if_neg hc] at h
      exact (Option.some_inj.mp h).symm
  · intro rest acc o h
    rw [hO] at h
    simp only [offersLoop, hO]
    rw [Except.ok.inj h]

/-! ## C3 and C10: failure isolation in the two loops -/

/-- The offers kept from a list of nodes when every node traverses without
raising: successfully extracted records with at least one truthy value. -/
def keptOffers (nodes : List Node) : List Offer :=
  nodes.filterMap (fun e =>
    match extractOfferE e with
    | .error _ => none
    | .ok o => if o.truthy then some o else none)

lemma offersLoop_append_ok (pre rest : List Node) (acc : List Offer)
    (h : ∀ m ∈ pre, (extractOfferE m).isOk = true) :
    offersLoop (pre ++ rest) acc = offersLoop rest (acc ++ keptOffers pre) := by
  induction pre generalizing acc with
  | nil => simp [keptOffers]
  | cons n ns ih =>
    have hn := h n (List.mem_cons_self n ns)
    cases he : extractOfferE n with
    | error u =>
      rw [he] at hn
      exact absurd hn (by simp [Except.isOk, Except.toBool])
    | ok o =>
      simp only [List.cons_append, offersLoop, he, List.append_eq]
      rw [ih _ (fun m hm => h m (List.mem_cons_of_mem _ hm))]
      congr 1
      unfold keptOffers
      rw [List.filterMap_cons]
      by_cases ht : o.truthy = true
      · simp [he, ht, List.append_assoc]
      · simp [he, ht]

lemma offersLoop_error (b : Node) (post : List Node) (acc : List Offer)
    (hb : (extractOfferE b).isOk = false) :
    offersLoop (b :: post) acc = acc := by
  cases he : extractOfferE b with
  | error u => simp [offersLoop, he]
  | ok o =>
    rw [he] at hb
    exact absurd hb (by simp [Except.isOk, Except.toBool])

/-- Offer nodes used by the C3 counterexample and witness. -/
def okOffer1 : Node :=
  .mk "div" ["offer-item"] [] "" false
    [.mk "span" ["price"] [] "10" false []]

def brokenOffer : Node :=
  .mk "div" ["offer-item"] [] "" false
    [.mk "span" ["price"] [] "xx" true []]

def okOffer2 : Node :=
  .mk "div" ["offer-item"] [] "" false
    [.mk "span" ["price"] [] "20" false []]

def offersDoc : List Node := [okOffer1, brokenOffer, okOffer2]

/-- C3 (counterexample): in offers mode an exception on one node aborts the
whole loop, because the `try` of `_parse_part_details` wraps the entire
`for` (src/main.py lines 258-291).  Here the second node raises during
traversal; the third node is perfectly well-formed — extracting to a
truthy offer — yet is absent from the output. -/
theorem c3_counterexample :
    parse_part_details offersDoc "A1" =
        ⟨"A1", [⟨some "10", none, none, none⟩]⟩ ∧
      extractOfferE okOffer2 = .ok ⟨some "20", none, none, none⟩ :=
  ⟨rfl, rfl⟩

/-- C3 (amended): in listings mode a per-node exception is caught inside
`_extract_part_info`, so only the raising node is omitted and every other
node still yields its record; in offers mode the first raising node ends
the loop — the offers accumulated from the nodes before it are returned
and the nodes after it are never processed. -/
theorem c3_per_node_isolation :
    (∀ doc pre b post, candidateListingNodes doc = pre ++ b :: post →
      (extractInfoE b).isOk = false →
      parse_parts_from_html doc =
        pre.filterMap extract_part_info ++
          post.filterMap extract_part_info) ∧
    (∀ doc a pre b post, candidateOfferNodes doc = pre ++ b :: post →
      (extractOfferE b).isOk = false →
      (∀ m ∈ pre, (extractOfferE m).isOk = true) →
      parse_part_details doc a = ⟨a, keptOffers pre⟩) := by
  constructor
  · intro doc pre b post hsplit hb
    have hfb : extract_part_info b = none := by
      unfold extract_part_info
      cases he : extractInfoE b with
      | error u => rfl
      | ok o =>
        rw [he] at hb
        exact absurd hb (by simp [Except.isOk, Except.toBool])
    unfold parse_parts_from_html
    rw [hsplit, List.filterMap_append, List.filterMap_cons, hfb]
  · intro doc a pre b post hsplit hb hpre
    unfold parse_part_details
    rw [hsplit, offersLoop_append_ok pre (b :: post) [] hpre,
      offersLoop_error b post _ hb]
    simp

/-- Listing nodes used by the C3 witness. -/
def okListing1 : Node :=
  .mk "div" ["part-item"] [] "" false
    [.mk "span" ["name"] [] "filter" false []]

def brokenListing : Node :=
  .mk "div" ["part-item"] [] "" false
    [.mk "span" ["name"] [] "bad" true []]

def okListing2 : Node :=
  .mk "div" ["part-item"] [] "" false
    [.mk "span" ["name"] [] "pump" false []]

def listingsDoc : List Node := [okListing1, brokenListing, okListing2]

theorem c3_per_node_isolation_witness :
    parse_parts_from_html listingsDoc =
        [okListing1].filterMap extract_part_info ++
          [okListing2].filterMap extract_part_info ∧
      parse_part_details offersDoc "B2" = ⟨"B2", keptOffers [okOffer1]⟩ :=
  ⟨c3_per_node_isolation.1 listingsDoc [okListing1] brokenListing
      [okListing2] rfl rfl,
    c3_per_node_isolation.2 offersDoc "B2" [okOffer1] brokenOffer [okOffer2]
      rfl rfl
      (by
        intro m hm
        rw [List.mem_singleton] at hm
        subst hm
        rfl)⟩

/-- C10: on a 200 page response `get_part_details` returns a success
envelope whose payload carries the input article and an offers list, never
an error dict — and when the offer loop raises at some node, the offers
accumulated from the earlier nodes are still returned (src/main.py lines
233-242, 251-293). -/
theorem c10_details_success_total (a : String) (doc : List Node) :
    (get_part_details a ⟨200, doc⟩).1 = .success (parse_part_details doc a) ∧
    (parse_part_details doc a).article = a ∧
    (∀ pre b post, candidateOfferNodes doc = pre ++ b :: post →
      (extractOfferE b).isOk = false →
      (∀ m ∈ pre, (extractOfferE m).isOk = true) →
      (parse_part_details doc a).offers = keptOffers pre) := by
  refine ⟨?_, rfl, ?_⟩
  · unfold get_part_details
    rw [if_neg (by simp)]
  · intro pre b post hsplit hb hpre
    unfold parse_part_details
    simp only
    rw [hsplit, offersLoop_append_ok pre (b :: post) [] hpre,
      offersLoop_error b post _ hb]
    simp

/-- Offer nodes used by the C10 witness. -/
def detGood : Node :=
  .mk "div" ["offer-item"] [] "" false
    [.mk "span" ["price"] [] "30" false []]

def detBroken : Node :=
  .mk "div" ["offer-item"] [] "" false
    [.mk "span" ["warehouse"] [] "w" true []]

def detGood2 : Node :=
  .mk "div" ["offer-item"] [] "" false
    [.mk "span" ["price"] [] "40" false []]

def detDoc : List Node := [detGood, detBroken, detGood2]

theorem c10_details_success_total_witness :
    (get_part_details "A7" ⟨200, detDoc⟩).1 =
        .success (parse_part_details detDoc "A7") ∧
      (parse_part_details detDoc "A7").article = "A7" ∧
      (parse_part_details detDoc "A7").offers = keptOffers [detGood] :=
  ⟨(c10_details_success_total "A7" detDoc).1,
    (c10_details_success_total "A7" detDoc).2.1,
    (c10_details_success_total "A7" detDoc).2.2 [detGood] detBroken
      [detGood2] rfl rfl
      (by
        intro m hm
        rw [List.mem_singleton] at hm
        subst hm
        rfl)⟩

/-- A listing node with exactly one populated field (a price). -/
def onePricedListing : Node :=
  .mk "div" ["part-item"] [] "" false
    [.mk "span" ["price"] [] " 100 " false []]

theorem c2_field_population_witness :
    (extract_part_info onePricedListing = none ↔
      selArticle onePricedListing = none ∧ selName onePricedListing = none ∧
        selPrice onePricedListing = none ∧
        selAvailability onePricedListing = none ∧
        selManufacturer onePricedListing = none ∧
        selDelivery onePricedListing = none) ∧
    (∀ info, extract_part_info onePricedListing = some info →
      info = ⟨(selArticle onePricedListing).map Node.getText,
        (selName onePricedListing).map Node.getText,
        (selPrice onePricedListing).map Node.getText,
        (selAvailability onePricedListing).map Node.getText,
        (selManufacturer onePricedListing).map Node.getText,
        (selDelivery onePricedListing).map Node.getText⟩) ∧
    (extractOfferE onePricedListing = .ok
      ⟨(selOfferPrice onePricedListing).map Node.getText,
       (selOfferAvailability onePricedListing).map Node.getText,
       (selOfferWarehouse onePricedListing).map Node.getText,
       (selOfferDelivery onePricedListing).map Node.getText⟩) ∧
    (∀ rest acc o, extractOfferE onePricedListing = .ok o →
      offersLoop (onePricedListing :: rest) acc =
        offersLoop rest (if o.truthy then acc ++ [o] else acc)) :=
  c2_field_population onePricedListing rfl rfl rfl rfl rfl rfl rfl rfl rfl rfl
